import Mathlib

/-!
Verification development for the Ollama chat web server (`server.js`).

The file embeds, as executable Lean definitions, the parts of the server the
claims are about:

* the tolerant JSON extraction and parse used by the two advisor functions
  `checkIfNeedsSearch` (lines 220-302) and `confirmResponseAdequacy`
  (lines 128-217), including a model of `JSON.parse` (ECMA-404 grammar);
* the `getCurrentDate` helper (lines 55-76), with JavaScript `Date`
  semantics made explicit as an epoch-minute timestamp plus a timezone
  offset (`getFullYear` is local time, `toISOString` is UTC);
* the `/api/chat` request handler (lines 309-513) as a pure function from
  the outcomes of its external calls (the two advisor verdicts, the two
  possible web searches, the buffered and the streaming completion call)
  to the sequence of server-sent events it writes, plus the out-of-band
  JSON error response produced by the catch handler.

Theorems `C1_*` .. `C10_*` settle the frozen claims against this embedding.
-/

namespace Srv

/-! ## JSON values and a model of `JSON.parse`

`JVal` models the JavaScript values `JSON.parse` can return inside the
advisors; object fields keep their textual order, duplicate keys are kept
and field lookup takes the last binding, as `JSON.parse` does.  Numbers are
kept as their source lexeme; only their truthiness is ever consulted. -/

inductive JVal where
  | null
  | bool (b : Bool)
  | num (lexeme : String)
  | str (s : String)
  | arr (elems : List JVal)
  | obj (fields : List (String × JVal))
deriving Repr, Inhabited

/-- JSON whitespace (space, tab, line feed, carriage return). -/
def skipWs (cs : List Char) : List Char :=
  cs.dropWhile (fun c => c == ' ' || c == '\t' || c == '\n' || c == '\r')

/-- Value of one hexadecimal digit, as used in `\uXXXX` escapes. -/
def hexVal (c : Char) : Option Nat :=
  if c.isDigit then some (c.toNat - 48)
  else if 'a' ≤ c ∧ c ≤ 'f' then some (c.toNat - 87)
  else if 'A' ≤ c ∧ c ≤ 'F' then some (c.toNat - 55)
  else none

/-- Body of a JSON string after the opening quote: decoded characters and the
rest of the input after the closing quote.  Raw control characters and
invalid escapes are rejected, as `JSON.parse` rejects them. -/
def parseStringBody : List Char → Option (List Char × List Char)
  | [] => none
  | '"' :: rest => some ([], rest)
  | '\\' :: 'u' :: h1 :: h2 :: h3 :: h4 :: rest => do
    let v1 ← hexVal h1
    let v2 ← hexVal h2
    let v3 ← hexVal h3
    let v4 ← hexVal h4
    let (tail, r) ← parseStringBody rest
    some (Char.ofNat (((v1 * 16 + v2) * 16 + v3) * 16 + v4) :: tail, r)
  | '\\' :: e :: rest =>
    let dec : Option Char :=
      if e = '"' then some '"'
      else if e = '\\' then some '\\'
      else if e = '/' then some '/'
      else if e = 'b' then some '\x08'
      else if e = 'f' then some '\x0c'
      else if e = 'n' then some '\n'
      else if e = 'r' then some '\r'
      else if e = 't' then some '\t'
      else none
    match dec with
    | none => none
    | some c => (parseStringBody rest).map (fun p => (c :: p.1, p.2))
  | '\\' :: [] => none
  | c :: rest =>
    if c.toNat < 32 then none
    else (parseStringBody rest).map (fun p => (c :: p.1, p.2))

/-- A maximal nonempty run of decimal digits. -/
def parseDigits (cs : List Char) : Option (List Char × List Char) :=
  let ds := cs.takeWhile Char.isDigit
  if ds.isEmpty then none else some (ds, cs.dropWhile Char.isDigit)

/-- Optional fraction part of a JSON number. -/
def parseFrac : List Char → Option (List Char × List Char)
  | '.' :: t => (parseDigits t).map (fun p => ('.' :: p.1, p.2))
  | cs => some ([], cs)

/-- Optional exponent part of a JSON number. -/
def parseExp : List Char → Option (List Char × List Char)
  | [] => some ([], [])
  | c :: t =>
    if c = 'e' ∨ c = 'E' then
      match t with
      | [] => none
      | s :: t2 =>
        if s = '+' ∨ s = '-' then (parseDigits t2).map (fun p => (c :: s :: p.1, p.2))
        else (parseDigits t).map (fun p => (c :: p.1, p.2))
    else some ([], c :: t)

/-- A JSON number lexeme (ECMA-404: optional minus, `0` or a nonzero-led
digit run, optional fraction, optional exponent). -/
def parseNumber (cs : List Char) : Option (List Char × List Char) := do
  let (neg, cs1) :=
    match cs with
    | '-' :: t => (['-'], t)
    | _ => (([] : List Char), cs)
  let (ip, cs2) ←
    match cs1 with
    | '0' :: t => some (['0'], t)
    | _ => parseDigits cs1
  let (fp, cs3) ← parseFrac cs2
  let (ep, cs4) ← parseExp cs3
  some (neg ++ ip ++ fp ++ ep, cs4)

mutual

/-- JSON value parser.  The fuel argument only bounds nesting; every mutual
call consumes at least one input character first, so `length + 1` fuel (as
supplied by `jsParse`) can never run out on any input. -/
def parseValue : Nat → List Char → Option (JVal × List Char)
  | 0, _ => none
  | fuel + 1, cs =>
    match skipWs cs with
    | [] => none
    | '"' :: rest => (parseStringBody rest).map (fun p => (JVal.str (String.mk p.1), p.2))
    | '\x7b' :: rest =>
      (match skipWs rest with
       | '\x7d' :: r2 => some (JVal.obj [], r2)
       | r1 => (parseMembers fuel r1).map (fun p => (JVal.obj p.1, p.2)))
    | '[' :: rest =>
      (match skipWs rest with
       | ']' :: r2 => some (JVal.arr [], r2)
       | r1 => (parseElements fuel r1).map (fun p => (JVal.arr p.1, p.2)))
    | 't' :: rest =>
      if rest.take 3 = ['r', 'u', 'e'] then some (JVal.bool true, rest.drop 3) else none
    | 'f' :: rest =>
      if rest.take 4 = ['a', 'l', 's', 'e'] then some (JVal.bool false, rest.drop 4) else none
    | 'n' :: rest =>
      if rest.take 3 = ['u', 'l', 'l'] then some (JVal.null, rest.drop 3) else none
    | c :: rest =>
      if c = '-' ∨ c.isDigit then
        (parseNumber (c :: rest)).map (fun p => (JVal.num (String.mk p.1), p.2))
      else none

/-- Members of a JSON object after the opening brace (nonempty case). -/
def parseMembers : Nat → List Char → Option (List (String × JVal) × List Char)
  | 0, _ => none
  | fuel + 1, cs =>
    match cs with
    | '"' :: rest => do
      let (key, r1) ← parseStringBody rest
      match skipWs r1 with
      | ':' :: r3 => do
        let (v, r4) ← parseValue fuel r3
        match skipWs r4 with
        | ',' :: r6 => do
          let (ms, r7) ← parseMembers fuel (skipWs r6)
          some ((String.mk key, v) :: ms, r7)
        | '\x7d' :: r6 => some ([(String.mk key, v)], r6)
        | _ => none
      | _ => none
    | _ => none

/-- Elements of a JSON array after the opening bracket (nonempty case). -/
def parseElements : Nat → List Char → Option (List JVal × List Char)
  | 0, _ => none
  | fuel + 1, cs => do
    let (v, r1) ← parseValue fuel cs
    match skipWs r1 with
    | ',' :: r3 => do
      let (vs, r4) ← parseElements fuel (skipWs r3)
      some (v :: vs, r4)
    | ']' :: r3 => some ([v], r3)
    | _ => none

end

/-- Model of `JSON.parse`: parse one value, allow surrounding whitespace,
reject trailing input (a trailing-garbage parse throws in JavaScript and is
`none` here). -/
def jsParse (s : String) : Option JVal :=
  match parseValue (s.length + 1) s.data with
  | some (v, rest) => if skipWs rest = [] then some v else none
  | none => none

/-- Field lookup on a parsed object; duplicate keys resolve to the last
binding, as in `JSON.parse`.  `none` models JavaScript `undefined`. -/
def JVal.getField : JVal → String → Option JVal
  | .obj fields, k => (fields.reverse.find? (fun p => p.1 == k)).map Prod.snd
  | _, _ => none

/-- Whether a JSON number lexeme denotes zero: every mantissa digit is `0`
(the exponent cannot make a zero mantissa nonzero). -/
def numIsZero (lexeme : String) : Bool :=
  ((lexeme.data.takeWhile (fun c => !(c == 'e') && !(c == 'E'))).filter Char.isDigit).all
    (fun c => c == '0')

/-- JavaScript truthiness of a field read from a parsed object: `undefined`
(absent field), `null`, `false`, `0` and `""` are falsy; everything else is
truthy. -/
def truthy : Option JVal → Bool
  | none => false
  | some .null => false
  | some (.bool b) => b
  | some (.num lexeme) => !numIsZero lexeme
  | some (.str s) => s != ""
  | some (.arr _) => true
  | some (.obj _) => true

/-! ## JavaScript string primitives

The string operations the server uses (`split`, `trim`, `includes`,
`startsWith`, `endsWith`, number rendering) are modelled directly, with
structural recursion so that every concrete run reduces in the kernel. -/

/-- Whitespace for `String.prototype.trim` (the inputs at hand are ASCII). -/
def isWsChar (c : Char) : Bool :=
  c == ' ' || c == '\t' || c == '\n' || c == '\r'

/-- JavaScript `String.prototype.trim`. -/
def trimJS (s : String) : String :=
  String.mk (((s.data.dropWhile isWsChar).reverse.dropWhile isWsChar).reverse)

/-- Splitting worker: scan left to right, cutting at each occurrence of the
(nonempty) separator; the fuel is structural and `length + 1` always
suffices since each step consumes at least one character. -/
def splitAuxJS (sep : List Char) : Nat → List Char → List Char → List (List Char)
  | 0, acc, _ => [acc.reverse]
  | _ + 1, acc, [] => [acc.reverse]
  | fuel + 1, acc, c :: rest =>
    if sep.isPrefixOf (c :: rest) then
      acc.reverse :: splitAuxJS sep fuel [] ((c :: rest).drop sep.length)
    else
      splitAuxJS sep fuel (c :: acc) rest

/-- JavaScript `String.prototype.split` with a nonempty string separator. -/
def splitJS (s sep : String) : List String :=
  (splitAuxJS sep.data (s.length + 1) [] s.data).map String.mk

/-- JavaScript `String.prototype.includes` for a nonempty needle. -/
def includesStr (s sub : String) : Bool :=
  decide (1 < (splitJS s sub).length)

/-- JavaScript `String.prototype.startsWith`. -/
def startsWithJS (s p : String) : Bool :=
  p.data.isPrefixOf s.data

/-- JavaScript `String.prototype.endsWith`. -/
def endsWithJS (s p : String) : Bool :=
  p.data.reverse.isPrefixOf s.data.reverse

/-- Decimal digits of a natural number (fuel-structural; `n + 1` fuel always
suffices). -/
def natDigits : Nat → Nat → List Char
  | 0, _ => []
  | fuel + 1, n =>
    if n < 10 then [Char.ofNat (48 + n)]
    else natDigits fuel (n / 10) ++ [Char.ofNat (48 + n % 10)]

/-- Decimal rendering of a natural number. -/
def natToStr (n : Nat) : String :=
  String.mk (natDigits (n + 1) n)

/-- Decimal rendering of an integer. -/
def intToStr (i : Int) : String :=
  if i < 0 then "-" ++ natToStr i.natAbs else natToStr i.natAbs

/-! ## The advisors' tolerant extraction (lines 181-196 and 266-281)

The two advisor functions contain the same extraction block character for
character; it is embedded once. -/

/-- The tolerant JSON extraction both advisors run on the model output
(lines 181-196, identically 266-281): strip a fenced code block if present,
drop everything before the first `\x7b` and after the last `\x7d`
(the two `replace` regexes), then force a leading `\x7b` and a trailing
`\x7d`. -/
def extractJson (content : String) : String :=
  let jsonStr :=
    if includesStr content "```json" then
      trimJS ((splitJS ((splitJS content "```json").getD 1 "") "```").getD 0 "")
    else if includesStr content "```" then
      trimJS ((splitJS ((splitJS content "```").getD 1 "") "```").getD 0 "")
    else content
  let s1 := String.mk (jsonStr.data.dropWhile (fun c => c != '\x7b'))
  let s2 := String.mk ((s1.data.reverse.dropWhile (fun c => c != '\x7d')).reverse)
  let s3 := if startsWithJS s2 "\x7b" then s2 else "\x7b" ++ s2
  if endsWithJS s3 "\x7d" then s3 else s3 ++ "\x7d"

/-- A JavaScript error value: `message` and the optional `status_code` the
Ollama client attaches. -/
structure JsError where
  message : String
  status_code : Option Nat
deriving Repr, DecidableEq

/-- Fallback decision of `checkIfNeedsSearch` (line 300). -/
def searchDecisionFallback : JVal :=
  .obj [("needs_search", .bool false), ("search_query", .str ""),
        ("reasoning", .str "Reasoning check failed, defaulting to no search")]

/-- Fallback decision of `confirmResponseAdequacy` (line 215). -/
def adequacyFallback : JVal :=
  .obj [("is_adequate", .bool true), ("needs_search", .bool false), ("search_query", .str ""),
        ("reasoning", .str "Confirmation check failed, defaulting to adequate")]

/-- `checkIfNeedsSearch` (lines 220-302) as a function of the outcome of its
single completion call: on a thrown call the catch returns the fallback; on
success the trimmed content goes through the tolerant extraction and
`JSON.parse`, whose throw is caught by the same catch (fallback), and whose
parsed object is returned unvalidated.  Totality of this function models
that the advisor never raises to its caller. -/
def checkIfNeedsSearch (chatOutcome : Except JsError String) : JVal :=
  match chatOutcome with
  | .error _ => searchDecisionFallback
  | .ok rawContent =>
    let content := trimJS rawContent
    match jsParse (extractJson content) with
    | some decision => decision
    | none => searchDecisionFallback

/-- `confirmResponseAdequacy` (lines 128-217) as a function of the outcome of
its single completion call; identical extraction and catch structure, with
the adequate-by-default fallback. -/
def confirmResponseAdequacy (chatOutcome : Except JsError String) : JVal :=
  match chatOutcome with
  | .error _ => adequacyFallback
  | .ok rawContent =>
    let content := trimJS rawContent
    match jsParse (extractJson content) with
    | some confirmation => confirmation
    | none => adequacyFallback

/-! ## `getCurrentDate` (lines 55-76)

JavaScript `Date` state is an instant; the embedding carries it as minutes
since the Unix epoch together with the environment's timezone offset in
minutes (minutes to add to UTC to obtain local time, i.e. the negation of
`getTimezoneOffset()`).  `toISOString` renders the UTC date; `getFullYear`
and `toLocaleDateString` use local time. -/

/-- Convert a day count since 1970-01-01 to a proleptic Gregorian
`(year, month, day)` (the standard civil-from-days algorithm). -/
def civilFromDays (z : Int) : Int × Int × Int :=
  let z' := z + 719468
  let era := z'.fdiv 146097
  let doe := z' - era * 146097
  let yoe := (doe - doe / 1460 + doe / 36524 - doe / 146096) / 365
  let y := yoe + era * 400
  let doy := doe - (365 * yoe + yoe / 4 - yoe / 100)
  let mp := (5 * doy + 2) / 153
  let d := doy - (153 * mp + 2) / 5 + 1
  let m := mp + (if mp < 10 then 3 else -9)
  (y + (if m ≤ 2 then 1 else 0), m, d)

/-- Zero-pad a month or day to two digits. -/
def pad2 (n : Int) : String :=
  if n < 10 then "0" ++ intToStr n else intToStr n

/-- Zero-pad a year to four digits. -/
def pad4 (n : Int) : String :=
  if n < 10 then "000" ++ intToStr n
  else if n < 100 then "00" ++ intToStr n
  else if n < 1000 then "0" ++ intToStr n
  else intToStr n

/-- The `YYYY-MM-DD` prefix of `toISOString` for a given UTC day count
(`toISOString().split('T')[0]`, line 59). -/
def isoFromDays (days : Int) : String :=
  let c := civilFromDays days
  pad4 c.1 ++ "-" ++ pad2 c.2.1 ++ "-" ++ pad2 c.2.2

/-- `toLocaleDateString('en-US', \x7b weekday: 'long' \x7d)` for a local day
count; day 0 (1970-01-01) was a Thursday. -/
def weekdayName (days : Int) : String :=
  match (days + 4).emod 7 with
  | 0 => "Sunday"
  | 1 => "Monday"
  | 2 => "Tuesday"
  | 3 => "Wednesday"
  | 4 => "Thursday"
  | 5 => "Friday"
  | _ => "Saturday"

/-- The record `getCurrentDate` returns (lines 69-75). -/
structure DateCtx where
  iso : String
  dayOfWeek : String
  currentYear : Int
  previousYear : Int
  formatted : String
deriving Repr, DecidableEq

/-- `getCurrentDate` (lines 55-76): `iso` comes from `toISOString` (UTC);
`dayOfWeek` from `toLocaleDateString` and `currentYear` from `getFullYear`
(both local time); `previousYear = currentYear - 1`. -/
def getCurrentDate (epochMinutes tzOffsetMinutes : Int) : DateCtx :=
  let utcDays := epochMinutes.fdiv 1440
  let localDays := (epochMinutes + tzOffsetMinutes).fdiv 1440
  let isoDate := isoFromDays utcDays
  let dayOfWeek := weekdayName localDays
  let currentYear := (civilFromDays localDays).1
  { iso := isoDate, dayOfWeek := dayOfWeek, currentYear := currentYear,
    previousYear := currentYear - 1,
    formatted := isoDate ++ " (" ++ dayOfWeek ++ ")" }

/-- The year component of a rendered `YYYY-MM-DD` string (`year(isoDate)` in
the claimed invariant). -/
def isoYear (s : String) : Int :=
  ((s.data.takeWhile Char.isDigit).foldl (fun a c => a * 10 + (c.toNat - 48)) (0 : Nat) : Nat)

/-! ## The `/api/chat` handler (lines 309-513)

The handler is embedded as a pure function from the outcomes of its
external calls to the ordered list of events it writes on the response
stream, plus the out-of-band JSON error response its catch handler
produces when a completion call throws.  The two advisor calls never throw
(see `checkIfNeedsSearch` / `confirmResponseAdequacy` above), so the
handler consumes their verdicts only through the fields it reads:
`needs_search` / `is_adequate` truthiness and the `search_query` string.
Prompt construction (lines 371-389) produces strings that never reach the
event stream and is not modelled. -/

/-- One Google search result (lines 106-110). -/
structure SearchResult where
  title : String
  link : String
  snippet : String
deriving Repr

/-- The fields of the need-decision the handler reads: truthiness of
`needs_search` and the `search_query` string (empty models both `""` and an
absent field, which are equally falsy). -/
structure OrchDecision where
  needs_search : Bool
  search_query : String
deriving Repr

/-- The fields of the adequacy verdict the handler reads. -/
structure OrchConfirmation where
  is_adequate : Bool
  search_query : String
deriving Repr

/-- Outcome of the streaming completion call: the `message.content` of each
chunk delivered, then optionally a throw (covering both a failed
`ollama.chat` call, `chunks = []`, and a failure mid-iteration). -/
structure StreamOut where
  chunks : List String
  err : Option JsError
deriving Repr

/-- Outcomes of every external call one request can make. -/
structure Env where
  searchDecision : OrchDecision
  initialSearch : Except String (List SearchResult)
  bufferedChat : Except JsError String
  confirmation : OrchConfirmation
  retrySearch : Except String (List SearchResult)
  streamChat : StreamOut
deriving Repr

/-- One server-sent event: `progress` is a
`\x7bcontent: '', type, message\x7d` line, `content` a
`\x7bcontent, done: false\x7d` line, and `done` the terminal
`\x7bcontent: '', done: true\x7d` line. -/
inductive Event where
  | progress (ptype : String) (message : String)
  | content (text : String)
  | done
deriving Repr, DecidableEq

/-- Event written at line 334. -/
def evAnalyzing : Event := .progress "reasoning" "Analyzing if web search is needed..."

/-- Event written at lines 395 and 467. -/
def evThinking : Event := .progress "thinking" "Generating response..."

/-- Event written at line 407. -/
def evVerifying : Event := .progress "reasoning" "Verifying response adequacy..."

/-- Event written at lines 343 and 439. -/
def evSearching (q : String) : Event :=
  .progress "search" ("Searching the web for: \"" ++ q ++ "\"...")

/-- The identical reporting blocks after a `performWebSearch` call
(lines 344-357 and 441-458): the events written and the resulting
`searchResults` (`none` models `null`: the catch leaves/sets it null). -/
def searchOutcomeEvents (r : Except String (List SearchResult)) :
    List Event × Option (List SearchResult) :=
  match r with
  | .ok results =>
    (if 0 < results.length then
       [.progress "search" ("Found " ++ natToStr results.length ++ " search result(s)")]
     else
       [.progress "search" "No search results found"], some results)
  | .error m => ([.progress "error" ("Web search failed: " ++ m)], none)

/-- `maxRetries` (line 367). -/
def maxRetries : Nat := 1

/-- One slice step of the chunked draft emission (lines 414-418 and
428-432): slices of `chunkSize = 10` characters, `substring(i, i + 10)`. -/
def chunkDraftAux : List Char → List (List Char)
  | [] => []
  | c :: cs => (c :: cs.take 9) :: chunkDraftAux (cs.drop 9)
termination_by l => l.length
decreasing_by simp; omega

/-- The draft split into successive 10-character slices, as the two
`for (let i = 0; i < fullResponse.length; i += chunkSize)` loops emit it. -/
def chunkDraft (s : String) : List String :=
  (chunkDraftAux s.data).map String.mk

/-- Result of the `while (true)` loop (lines 369-487): events written inside
the loop, the error thrown out of it (if any), and instrumentation counters:
how many times `confirmResponseAdequacy` was invoked, how many
post-adequacy regeneration passes (`continue`, line 462) ran, and whether
the `retryCount > maxRetries` branch (lines 425-434) executed. -/
structure LoopOut where
  events : List Event
  thrown : Option JsError
  adequacyCalls : Nat
  regenPasses : Nat
  maxRetriesHit : Bool
deriving Repr

/-- The `while (true)` loop of the handler (lines 369-487).  The recursive
call is the `continue` at line 462, which always passes
`needsConfirmation = false` (line 461), so the loop runs at most twice.
`searchResults` is carried because the loop body updates it (lines 442,
457); it only feeds the prompt, which is not modelled. -/
def chatLoop (env : Env) (message : String) (needsConfirmation : Bool)
    (retryCount : Nat) (searchResults : Option (List SearchResult))
    (sd : OrchDecision) : LoopOut :=
  if h : needsConfirmation = true ∧ retryCount = 0 then
    -- lines 392-463: buffered generation, adequacy confirmation
    match env.bufferedChat with
    | .error e =>
      { events := [evThinking], thrown := some e,
        adequacyCalls := 0, regenPasses := 0, maxRetriesHit := false }
    | .ok fullResponse =>
      let confirmation := env.confirmation
      if confirmation.is_adequate then
        -- lines 410-419: stream the draft in chunks, break
        { events := [evThinking, evVerifying] ++ (chunkDraft fullResponse).map Event.content,
          thrown := none, adequacyCalls := 1, regenPasses := 0, maxRetriesHit := false }
      else
        let retryCount' := retryCount + 1
        if maxRetries < retryCount' then
          -- lines 425-434: budget exhausted, emit the draft anyway, break
          { events := [evThinking, evVerifying] ++ (chunkDraft fullResponse).map Event.content,
            thrown := none, adequacyCalls := 1, regenPasses := 0, maxRetriesHit := true }
        else
          -- lines 436-462: follow-up search, then continue
          let searchQuery :=
            if confirmation.search_query != "" then confirmation.search_query
            else if sd.search_query != "" then sd.search_query
            else message
          let searched := searchOutcomeEvents env.retrySearch
          let rest := chatLoop env message false retryCount' searched.2 sd
          { events := [evThinking, evVerifying, evSearching searchQuery] ++ searched.1 ++ rest.events,
            thrown := rest.thrown, adequacyCalls := 1 + rest.adequacyCalls,
            regenPasses := 1 + rest.regenPasses, maxRetriesHit := rest.maxRetriesHit }
  else
    -- lines 464-486: incremental streaming pass-through; only truthy
    -- chunk contents are written (line 478)
    { events := evThinking :: (env.streamChat.chunks.filter (fun c => c != "")).map Event.content,
      thrown := env.streamChat.err,
      adequacyCalls := 0, regenPasses := 0, maxRetriesHit := false }
termination_by (if needsConfirmation then 1 else 0)
decreasing_by simp [h.1]

/-- Process-wide configuration read by the catch handler (lines 505-509). -/
structure Config where
  isCloudMode : Bool
  apiKeySet : Bool
deriving Repr

/-- The catch handler (lines 495-513): it computes a status code and a
message and answers with `res.status(statusCode).json(...)` — an
out-of-band JSON response, not stream events. -/
def catchResponse (cfg : Config) (e : JsError) : Nat × String :=
  let errorMessage := if e.message = "" then "An error occurred" else e.message
  if e.status_code = some 401 ∨ includesStr errorMessage "unauthorized" = true then
    (401, "Authentication failed. Please check your OLLAMA_API_KEY in the .env file." ++
      (if cfg.isCloudMode ∧ ¬cfg.apiKeySet then " API key is missing."
       else if cfg.isCloudMode ∧ cfg.apiKeySet then " The API key may be invalid or expired."
       else ""))
  else
    (500, errorMessage)

/-- Full outcome of one `/api/chat` request: the events written on the
stream, the catch handler's JSON response if a completion call threw, and
the loop instrumentation plus whether the first-pass search branch
(lines 340-357) was entered. -/
structure RunOut where
  events : List Event
  jsonError : Option (Nat × String)
  adequacyCalls : Nat
  regenPasses : Nat
  maxRetriesHit : Bool
  initialSearchInvoked : Bool
deriving Repr

/-- The `/api/chat` handler after validation (lines 322-513): the analyzing
event (line 334), the advisor verdict, the optional first-pass search
(lines 340-360, entered iff `needs_search` and a truthy `search_query`),
`needsConfirmation = !needs_search && !searchResults` (line 364), the loop,
and either the final done event (line 492) or the catch response. -/
def chatHandler (cfg : Config) (env : Env) (message : String) : RunOut :=
  let sd := env.searchDecision
  let searched :=
    if sd.needs_search = true ∧ sd.search_query ≠ "" then
      let o := searchOutcomeEvents env.initialSearch
      (evSearching sd.search_query :: o.1, o.2, true)
    else (([] : List Event), (none : Option (List SearchResult)), false)
  let needsConfirmation := !sd.needs_search && searched.2.1.isNone
  let lo := chatLoop env message needsConfirmation 0 searched.2.1 sd
  match lo.thrown with
  | none =>
    { events := evAnalyzing :: searched.1 ++ lo.events ++ [Event.done],
      jsonError := none, adequacyCalls := lo.adequacyCalls,
      regenPasses := lo.regenPasses, maxRetriesHit := lo.maxRetriesHit,
      initialSearchInvoked := searched.2.2 }
  | some e =>
    { events := evAnalyzing :: searched.1 ++ lo.events,
      jsonError := some (catchResponse cfg e), adequacyCalls := lo.adequacyCalls,
      regenPasses := lo.regenPasses, maxRetriesHit := lo.maxRetriesHit,
      initialSearchInvoked := searched.2.2 }

/-- The texts of the `Content` events of a trace, in emission order. -/
def contentTexts (evs : List Event) : List String :=
  evs.filterMap (fun e => match e with | .content t => some t | _ => none)

/-- Concatenation of a list of strings (the claims speak of the
concatenation of the `Content` texts). -/
def strConcat (l : List String) : String :=
  String.mk (l.map String.data).flatten

/-! ## Path characterizations of the handler -/

/-- The tail of a trace after the streaming pass-through branch. -/
theorem chatLoop_else (env : Env) (msg : String) (nc : Bool) (rc : Nat)
    (sr : Option (List SearchResult)) (sd : OrchDecision)
    (h : ¬(nc = true ∧ rc = 0)) :
    chatLoop env msg nc rc sr sd =
      { events := evThinking :: (env.streamChat.chunks.filter (fun c => c != "")).map Event.content,
        thrown := env.streamChat.err,
        adequacyCalls := 0, regenPasses := 0, maxRetriesHit := false } := by
  rw [chatLoop]
  simp [h]

/-- Loop outcome when the buffered completion call throws. -/
theorem chatLoop_bufErr (env : Env) (msg : String)
    (sr : Option (List SearchResult)) (sd : OrchDecision) (e : JsError)
    (h : env.bufferedChat = .error e) :
    chatLoop env msg true 0 sr sd =
      { events := [evThinking], thrown := some e,
        adequacyCalls := 0, regenPasses := 0, maxRetriesHit := false } := by
  rw [chatLoop]
  simp [h]

/-- Loop outcome on an adequate draft: chunked emission, no retry. -/
theorem chatLoop_adequate (env : Env) (msg : String)
    (sr : Option (List SearchResult)) (sd : OrchDecision) (d : String)
    (hb : env.bufferedChat = .ok d) (ha : env.confirmation.is_adequate = true) :
    chatLoop env msg true 0 sr sd =
      { events := [evThinking, evVerifying] ++ (chunkDraft d).map Event.content,
        thrown := none, adequacyCalls := 1, regenPasses := 0, maxRetriesHit := false } := by
  rw [chatLoop]
  simp [hb, ha]

/-- Loop outcome on an inadequate draft: one follow-up search, one
regeneration pass through the streaming branch, never the exhausted-budget
branch. -/
theorem chatLoop_inadequate (env : Env) (msg : String)
    (sr : Option (List SearchResult)) (sd : OrchDecision) (d : String)
    (hb : env.bufferedChat = .ok d) (ha : env.confirmation.is_adequate = false) :
    chatLoop env msg true 0 sr sd =
      { events := [evThinking, evVerifying,
          evSearching (if env.confirmation.search_query != "" then env.confirmation.search_query
            else if sd.search_query != "" then sd.search_query else msg)] ++
          (searchOutcomeEvents env.retrySearch).1 ++
          (evThinking :: (env.streamChat.chunks.filter (fun c => c != "")).map Event.content),
        thrown := env.streamChat.err,
        adequacyCalls := 1, regenPasses := 1, maxRetriesHit := false } := by
  rw [chatLoop]
  simp [hb, ha, maxRetries, chatLoop_else]

/-- Trace when the need advisor said no search and the buffered draft call
throws: two progress events, no terminal event, a catch response. -/
theorem handler_noSearch_bufErr (cfg : Config) (env : Env) (msg : String) (e : JsError)
    (hn : env.searchDecision.needs_search = false) (hb : env.bufferedChat = .error e) :
    chatHandler cfg env msg =
      { events := [evAnalyzing, evThinking],
        jsonError := some (catchResponse cfg e), adequacyCalls := 0,
        regenPasses := 0, maxRetriesHit := false, initialSearchInvoked := false } := by
  unfold chatHandler
  simp [hn, chatLoop_bufErr env msg _ _ e hb]

/-- Trace when the need advisor said no search and the draft was judged
adequate: buffered generation, adequacy check, chunked emission, done. -/
theorem handler_noSearch_adequate (cfg : Config) (env : Env) (msg : String) (d : String)
    (hn : env.searchDecision.needs_search = false)
    (hb : env.bufferedChat = .ok d) (ha : env.confirmation.is_adequate = true) :
    chatHandler cfg env msg =
      { events := [evAnalyzing, evThinking, evVerifying] ++
          (chunkDraft d).map Event.content ++ [Event.done],
        jsonError := none, adequacyCalls := 1,
        regenPasses := 0, maxRetriesHit := false, initialSearchInvoked := false } := by
  unfold chatHandler
  simp [hn, chatLoop_adequate env msg _ _ d hb ha]

/-- Trace when the need advisor said no search and the draft was judged
inadequate: follow-up search, one regeneration, streamed pass-through. -/
theorem handler_noSearch_inadequate (cfg : Config) (env : Env) (msg : String) (d : String)
    (hn : env.searchDecision.needs_search = false)
    (hb : env.bufferedChat = .ok d) (ha : env.confirmation.is_adequate = false) :
    chatHandler cfg env msg =
      { events := [evAnalyzing, evThinking, evVerifying,
          evSearching (if env.confirmation.search_query != "" then env.confirmation.search_query
            else if env.searchDecision.search_query != "" then env.searchDecision.search_query
            else msg)] ++
          (searchOutcomeEvents env.retrySearch).1 ++
          (evThinking :: (env.streamChat.chunks.filter (fun c => c != "")).map Event.content) ++
          env.streamChat.err.elim [Event.done] (fun _ => []),
        jsonError := env.streamChat.err.map (fun e => catchResponse cfg e),
        adequacyCalls := 1, regenPasses := 1, maxRetriesHit := false,
        initialSearchInvoked := false } := by
  unfold chatHandler
  cases he : env.streamChat.err <;>
    simp [hn, he, chatLoop_inadequate env msg _ _ d hb ha]

/-- Trace when the need advisor asked for a search but supplied an empty
query: no search happens, yet the handler streams incrementally with no
adequacy check. -/
theorem handler_searchSkipped (cfg : Config) (env : Env) (msg : String)
    (hn : env.searchDecision.needs_search = true)
    (hq : env.searchDecision.search_query = "") :
    chatHandler cfg env msg =
      { events := (evAnalyzing ::
          (evThinking :: (env.streamChat.chunks.filter (fun c => c != "")).map Event.content)) ++
          env.streamChat.err.elim [Event.done] (fun _ => []),
        jsonError := env.streamChat.err.map (fun e => catchResponse cfg e),
        adequacyCalls := 0, regenPasses := 0, maxRetriesHit := false,
        initialSearchInvoked := false } := by
  unfold chatHandler
  cases he : env.streamChat.err <;> simp [hn, hq, he, chatLoop_else]

/-- Trace when the first-pass search branch is entered (`needs_search` true
and a nonempty query): search reporting events, then incremental
streaming, no adequacy check. -/
theorem handler_searched (cfg : Config) (env : Env) (msg : String)
    (hn : env.searchDecision.needs_search = true)
    (hq : env.searchDecision.search_query ≠ "") :
    chatHandler cfg env msg =
      { events := (evAnalyzing :: evSearching env.searchDecision.search_query ::
          (searchOutcomeEvents env.initialSearch).1 ++
          (evThinking :: (env.streamChat.chunks.filter (fun c => c != "")).map Event.content)) ++
          env.streamChat.err.elim [Event.done] (fun _ => []),
        jsonError := env.streamChat.err.map (fun e => catchResponse cfg e),
        adequacyCalls := 0, regenPasses := 0, maxRetriesHit := false,
        initialSearchInvoked := true } := by
  unfold chatHandler
  cases he : env.streamChat.err <;> simp [hn, hq, he, chatLoop_else]

/-! ## Support lemmas -/

/-- The slices of the chunked emission concatenate back to the draft:
the slicing covers the draft exactly once, with no overlap or gap. -/
theorem chunkDraftAux_flatten (l : List Char) : (chunkDraftAux l).flatten = l := by
  induction l using chunkDraftAux.induct with
  | case1 => simp [chunkDraftAux]
  | case2 c cs ih =>
    rw [chunkDraftAux]
    simp [ih]

/-- Every slice is nonempty and at most 10 characters long. -/
theorem chunkDraftAux_mem (l : List Char) :
    ∀ p ∈ chunkDraftAux l, p ≠ [] ∧ p.length ≤ 10 := by
  induction l using chunkDraftAux.induct with
  | case1 => simp [chunkDraftAux]
  | case2 c cs ih =>
    intro p hp
    rw [chunkDraftAux, List.mem_cons] at hp
    rcases hp with hp | hp
    · subst hp
      refine ⟨by simp, ?_⟩
      simp
    · exact ih p hp

/-- The chunk list is empty only for the empty draft. -/
theorem chunkDraftAux_eq_nil (l : List Char) : chunkDraftAux l = [] → l = [] := by
  cases l with
  | nil => exact fun _ => rfl
  | cons c cs => rw [chunkDraftAux]; simp

/-- Every slice except possibly the last is exactly 10 characters long. -/
theorem chunkDraftAux_dropLast (l : List Char) :
    ∀ p ∈ (chunkDraftAux l).dropLast, p.length = 10 := by
  induction l using chunkDraftAux.induct with
  | case1 => simp [chunkDraftAux]
  | case2 c cs ih =>
    intro p hp
    rw [chunkDraftAux] at hp
    cases hr : chunkDraftAux (cs.drop 9) with
    | nil => rw [hr] at hp; simp at hp
    | cons q qs =>
      rw [hr, List.dropLast_cons₂, List.mem_cons] at hp
      rcases hp with hp | hp
      · subst hp
        have h9 : 9 < cs.length := by
          by_contra hle
          have hnil : cs.drop 9 = [] := List.drop_eq_nil_of_le (by omega)
          rw [hnil] at hr
          exact absurd hr (by simp [chunkDraftAux])
        simp
        omega
      · rw [← hr] at hp
        exact ih p hp

/-- `strConcat` of the chunked draft is the draft itself. -/
theorem strConcat_chunkDraft (s : String) : strConcat (chunkDraft s) = s := by
  show String.mk _ = s
  rw [chunkDraft, List.map_map]
  have hid : (String.data ∘ String.mk) = id := funext fun l => rfl
  rw [hid, List.map_id, chunkDraftAux_flatten]

/-- Dropping empty strings does not change a concatenation (the streaming
branch only writes truthy chunk contents). -/
theorem strConcat_filter_empty (l : List String) :
    strConcat (l.filter (fun c => c != "")) = strConcat l := by
  induction l with
  | nil => rfl
  | cons c t ih =>
    by_cases hc : c = ""
    · subst hc
      simpa [strConcat] using ih
    · have : (c != "") = true := by simpa using hc
      simp only [List.filter_cons, this, if_true]
      show String.mk _ = String.mk _
      simp only [strConcat, List.map_cons, List.flatten_cons] at ih ⊢
      have := congrArg String.data ih
      simp at this
      rw [this]

/-- `contentTexts` over an appended trace. -/
theorem contentTexts_append (a b : List Event) :
    contentTexts (a ++ b) = contentTexts a ++ contentTexts b := by
  simp [contentTexts]

/-- `contentTexts` of a pure content block. -/
theorem contentTexts_map_content (l : List String) :
    contentTexts (l.map Event.content) = l := by
  induction l with
  | nil => rfl
  | cons c t ih => simpa [contentTexts] using ih

/-- The search reporting events carry no content and no terminal event. -/
theorem searchOutcome_no_content (r : Except String (List SearchResult)) :
    contentTexts (searchOutcomeEvents r).1 = [] ∧
    Event.done ∉ (searchOutcomeEvents r).1 := by
  cases r with
  | ok results =>
    by_cases h : 0 < results.length <;> simp [searchOutcomeEvents, h, contentTexts]
  | error m => simp [searchOutcomeEvents, contentTexts]

/-- Every run of the handler follows one of exactly five paths: no-search
with a thrown draft call, no-search with an adequate draft, no-search with
an inadequate draft, search skipped because the advisor supplied an empty
query, or a first-pass search. -/
theorem chatHandler_cases (cfg : Config) (env : Env) (msg : String) :
    (∃ e, env.searchDecision.needs_search = false ∧ env.bufferedChat = .error e ∧
      chatHandler cfg env msg =
        { events := [evAnalyzing, evThinking],
          jsonError := some (catchResponse cfg e), adequacyCalls := 0,
          regenPasses := 0, maxRetriesHit := false, initialSearchInvoked := false }) ∨
    (∃ d, env.searchDecision.needs_search = false ∧ env.bufferedChat = .ok d ∧
      env.confirmation.is_adequate = true ∧
      chatHandler cfg env msg =
        { events := [evAnalyzing, evThinking, evVerifying] ++
            (chunkDraft d).map Event.content ++ [Event.done],
          jsonError := none, adequacyCalls := 1,
          regenPasses := 0, maxRetriesHit := false, initialSearchInvoked := false }) ∨
    (∃ d, env.searchDecision.needs_search = false ∧ env.bufferedChat = .ok d ∧
      env.confirmation.is_adequate = false ∧
      chatHandler cfg env msg =
        { events := [evAnalyzing, evThinking, evVerifying,
            evSearching (if env.confirmation.search_query != "" then env.confirmation.search_query
              else if env.searchDecision.search_query != "" then env.searchDecision.search_query
              else msg)] ++
            (searchOutcomeEvents env.retrySearch).1 ++
            (evThinking :: (env.streamChat.chunks.filter (fun c => c != "")).map Event.content) ++
            env.streamChat.err.elim [Event.done] (fun _ => []),
          jsonError := env.streamChat.err.map (fun e => catchResponse cfg e),
          adequacyCalls := 1, regenPasses := 1, maxRetriesHit := false,
          initialSearchInvoked := false }) ∨
    (env.searchDecision.needs_search = true ∧ env.searchDecision.search_query = "" ∧
      chatHandler cfg env msg =
        { events := (evAnalyzing ::
            (evThinking :: (env.streamChat.chunks.filter (fun c => c != "")).map Event.content)) ++
            env.streamChat.err.elim [Event.done] (fun _ => []),
          jsonError := env.streamChat.err.map (fun e => catchResponse cfg e),
          adequacyCalls := 0, regenPasses := 0, maxRetriesHit := false,
          initialSearchInvoked := false }) ∨
    (env.searchDecision.needs_search = true ∧ env.searchDecision.search_query ≠ "" ∧
      chatHandler cfg env msg =
        { events := (evAnalyzing :: evSearching env.searchDecision.search_query ::
            (searchOutcomeEvents env.initialSearch).1 ++
            (evThinking :: (env.streamChat.chunks.filter (fun c => c != "")).map Event.content)) ++
            env.streamChat.err.elim [Event.done] (fun _ => []),
          jsonError := env.streamChat.err.map (fun e => catchResponse cfg e),
          adequacyCalls := 0, regenPasses := 0, maxRetriesHit := false,
          initialSearchInvoked := true }) := by
  by_cases hn : env.searchDecision.needs_search = true
  · by_cases hq : env.searchDecision.search_query = ""
    · exact .inr (.inr (.inr (.inl ⟨hn, hq, handler_searchSkipped cfg env msg hn hq⟩)))
    · exact .inr (.inr (.inr (.inr ⟨hn, hq, handler_searched cfg env msg hn hq⟩)))
  · have hn' : env.searchDecision.needs_search = false := by simpa using hn
    cases hb : env.bufferedChat with
    | error e => exact .inl ⟨e, hn', rfl, handler_noSearch_bufErr cfg env msg e hn' hb⟩
    | ok d =>
      by_cases ha : env.confirmation.is_adequate = true
      · exact .inr (.inl ⟨d, hn', rfl, ha, handler_noSearch_adequate cfg env msg d hn' hb ha⟩)
      · have ha' : env.confirmation.is_adequate = false := by simpa using ha
        exact .inr (.inr (.inl ⟨d, hn', rfl, ha',
          handler_noSearch_inadequate cfg env msg d hn' hb ha'⟩))

/-! ## The claims -/

/-- C1: for every request handled by the orchestrator, the adequacy advisor
(`confirmResponseAdequacy`) is invoked at most once, a post-adequacy
search-and-regenerate pass happens at most once, and every regeneration is
preceded by the (single) adequacy check — so a regenerated answer's
adequacy is never re-checked. -/
theorem C1_retry_budget (cfg : Config) (env : Env) (msg : String) :
    (chatHandler cfg env msg).adequacyCalls ≤ 1 ∧
    (chatHandler cfg env msg).regenPasses ≤ 1 ∧
    (chatHandler cfg env msg).regenPasses ≤ (chatHandler cfg env msg).adequacyCalls := by
  rcases chatHandler_cases cfg env msg with
    ⟨e, hn, hb, hh⟩ | ⟨d, hn, hb, ha, hh⟩ | ⟨d, hn, hb, ha, hh⟩ | ⟨hn, hq, hh⟩ | ⟨hn, hq, hh⟩ <;>
    rw [hh]
  all_goals simp

/-- C1 witness: a request that regenerates once after an inadequate verdict
consumes exactly the budget the theorem bounds. -/
theorem C1_retry_budget_witness :
    (chatHandler ⟨false, false⟩
      ⟨⟨false, ""⟩, .ok [], .ok "draft", ⟨false, "x"⟩, .error "down", ⟨["a"], none⟩⟩
      "m").adequacyCalls ≤ 1 ∧
    (chatHandler ⟨false, false⟩
      ⟨⟨false, ""⟩, .ok [], .ok "draft", ⟨false, "x"⟩, .error "down", ⟨["a"], none⟩⟩
      "m").regenPasses ≤ 1 ∧
    (chatHandler ⟨false, false⟩
      ⟨⟨false, ""⟩, .ok [], .ok "draft", ⟨false, "x"⟩, .error "down", ⟨["a"], none⟩⟩
      "m").regenPasses ≤
      (chatHandler ⟨false, false⟩
        ⟨⟨false, ""⟩, .ok [], .ok "draft", ⟨false, "x"⟩, .error "down", ⟨["a"], none⟩⟩
        "m").adequacyCalls :=
  C1_retry_budget ⟨false, false⟩
    ⟨⟨false, ""⟩, .ok [], .ok "draft", ⟨false, "x"⟩, .error "down", ⟨["a"], none⟩⟩ "m"

/-- C10: the budget-exhausted fallback branch (`retryCount > maxRetries`,
lines 425-434) is unreachable on every execution: the confirmation branch
requires `retryCount == 0`, an inadequate verdict increments the counter to
exactly `1 = maxRetries`, and the loop resumes with
`needsConfirmation = false`, so the exhausted-budget emission never runs. -/
theorem C10_dead_branch (cfg : Config) (env : Env) (msg : String) :
    (chatHandler cfg env msg).maxRetriesHit = false := by
  rcases chatHandler_cases cfg env msg with
    ⟨e, hn, hb, hh⟩ | ⟨d, hn, hb, ha, hh⟩ | ⟨d, hn, hb, ha, hh⟩ | ⟨hn, hq, hh⟩ | ⟨hn, hq, hh⟩ <;>
    rw [hh]

/-- A block of content events contains no terminal event. -/
theorem count_done_contentMap (l : List String) :
    (l.map Event.content).count Event.done = 0 := by
  rw [List.count_eq_zero]
  simp

/-- The search reporting events contain no terminal event. -/
theorem count_done_searchOutcome (r : Except String (List SearchResult)) :
    ((searchOutcomeEvents r).1).count Event.done = 0 := by
  rw [List.count_eq_zero]
  exact (searchOutcome_no_content r).2

/-- A trace whose tail ends in a terminal event still ends in it after a
leading event. -/
theorem getLast?_done_cons (a : Event) (l : List Event)
    (h : l.getLast? = some Event.done) :
    (a :: l).getLast? = some Event.done := by
  cases l with
  | nil => exact absurd h (by simp)
  | cons x xs => rw [List.getLast?_cons_cons]; exact h

/-- C3 (amended): for every request whose stream is opened and in which no
completion call throws — equivalently, whose run produces no catch-handler
response — exactly one terminal `done` event is emitted, it is always the
last event, and nothing follows it.  (When a completion call does throw,
no `done` is emitted at all; see the counterexample.) -/
theorem C3_done_terminal (cfg : Config) (env : Env) (msg : String)
    (h : (chatHandler cfg env msg).jsonError = none) :
    (chatHandler cfg env msg).events.count Event.done = 1 ∧
    (chatHandler cfg env msg).events.getLast? = some Event.done := by
  rcases chatHandler_cases cfg env msg with
    ⟨e, hn, hb, hh⟩ | ⟨d, hn, hb, ha, hh⟩ | ⟨d, hn, hb, ha, hh⟩ | ⟨hn, hq, hh⟩ | ⟨hn, hq, hh⟩
  · rw [hh] at h
    simp at h
  · rw [hh]
    constructor
    · simp [List.count_append, count_done_contentMap, evAnalyzing, evThinking, evVerifying]
    · have : [evAnalyzing, evThinking, evVerifying] ++
          (chunkDraft d).map Event.content ++ [Event.done] =
          ([evAnalyzing, evThinking, evVerifying] ++ (chunkDraft d).map Event.content) ++
            [Event.done] := by simp
      rw [this, List.getLast?_concat]
  · rw [hh] at h ⊢
    have he : env.streamChat.err = none := by
      simpa using h
    rw [he]
    constructor
    · simp [List.count_append, count_done_contentMap, count_done_searchOutcome,
        evAnalyzing, evThinking, evVerifying, evSearching]
    · simp [List.getLast?_append, List.getLast?_concat, getLast?_done_cons]
  · rw [hh] at h ⊢
    have he : env.streamChat.err = none := by
      simpa using h
    rw [he]
    constructor
    · simp [List.count_append, count_done_contentMap, evAnalyzing, evThinking]
    · simp [List.getLast?_append, List.getLast?_concat, getLast?_done_cons]
  · rw [hh] at h ⊢
    have he : env.streamChat.err = none := by
      simpa using h
    rw [he]
    constructor
    · simp [List.count_append, count_done_contentMap, count_done_searchOutcome,
        evAnalyzing, evThinking, evSearching]
    · simp [List.getLast?_append, List.getLast?_concat, getLast?_done_cons]

/-- C3 witness: on a throw-free run the theorem applies; here an adequate
draft is chunked and closed with one final `done`. -/
theorem C3_done_terminal_witness :
    (chatHandler ⟨false, false⟩
      ⟨⟨false, ""⟩, .ok [], .ok "fine", ⟨true, ""⟩, .ok [], ⟨[], none⟩⟩
      "m").events.count Event.done = 1 ∧
    (chatHandler ⟨false, false⟩
      ⟨⟨false, ""⟩, .ok [], .ok "fine", ⟨true, ""⟩, .ok [], ⟨[], none⟩⟩
      "m").events.getLast? = some Event.done :=
  C3_done_terminal ⟨false, false⟩
    ⟨⟨false, ""⟩, .ok [], .ok "fine", ⟨true, ""⟩, .ok [], ⟨[], none⟩⟩ "m"
    (by rw [handler_noSearch_adequate ⟨false, false⟩
      ⟨⟨false, ""⟩, .ok [], .ok "fine", ⟨true, ""⟩, .ok [], ⟨[], none⟩⟩ "m" "fine" rfl rfl rfl])

/-- C3 counterexample: a request whose stream is opened (the analyzing and
generating progress events are written) but whose buffered completion call
throws emits no `done` event at all — the handler instead attempts a JSON
error response — so the claim "exactly one terminal Done event is emitted"
fails as stated. -/
theorem C3_counterexample :
    (chatHandler ⟨false, false⟩
      ⟨⟨false, ""⟩, .ok [], .error ⟨"boom", none⟩, ⟨true, ""⟩, .ok [], ⟨[], none⟩⟩
      "m").events.count Event.done = 0 ∧
    (chatHandler ⟨false, false⟩
      ⟨⟨false, ""⟩, .ok [], .error ⟨"boom", none⟩, ⟨true, ""⟩, .ok [], ⟨[], none⟩⟩
      "m").events.length = 2 ∧
    (chatHandler ⟨false, false⟩
      ⟨⟨false, ""⟩, .ok [], .error ⟨"boom", none⟩, ⟨true, ""⟩, .ok [], ⟨[], none⟩⟩
      "m").jsonError = some (500, "boom") := by
  rw [handler_noSearch_bufErr ⟨false, false⟩
    ⟨⟨false, ""⟩, .ok [], .error ⟨"boom", none⟩, ⟨true, ""⟩, .ok [], ⟨[], none⟩⟩
    "m" ⟨"boom", none⟩ rfl rfl]
  refine ⟨by decide, by decide, ?_⟩
  decide

/-- C4 (amended): when a completion call fails the handler stops writing
stream events — in particular it never emits an in-band error event
followed by `done`; indeed no `done` is written at all — and instead
attempts an out-of-band JSON error response (`res.status(...).json(...)`)
computed by the catch handler. -/
theorem C4_throw_out_of_band (cfg : Config) (env : Env) (msg : String)
    (h : (chatHandler cfg env msg).jsonError ≠ none) :
    (chatHandler cfg env msg).events ≠ [] ∧
    (chatHandler cfg env msg).events.count Event.done = 0 ∧
    ∃ e, (chatHandler cfg env msg).jsonError = some (catchResponse cfg e) := by
  rcases chatHandler_cases cfg env msg with
    ⟨e, hn, hb, hh⟩ | ⟨d, hn, hb, ha, hh⟩ | ⟨d, hn, hb, ha, hh⟩ | ⟨hn, hq, hh⟩ | ⟨hn, hq, hh⟩
  · rw [hh]
    exact ⟨by simp, by simp [evAnalyzing, evThinking], e, rfl⟩
  · rw [hh] at h
    simp at h
  · rw [hh] at h ⊢
    obtain ⟨e, he⟩ : ∃ e, env.streamChat.err = some e := by
      cases hc : env.streamChat.err with
      | none => rw [hc] at h; simp at h
      | some e => exact ⟨e, rfl⟩
    rw [he]
    refine ⟨by simp, ?_, e, rfl⟩
    simp [List.count_append, count_done_contentMap, count_done_searchOutcome,
      evAnalyzing, evThinking, evVerifying, evSearching]
  · rw [hh] at h ⊢
    obtain ⟨e, he⟩ : ∃ e, env.streamChat.err = some e := by
      cases hc : env.streamChat.err with
      | none => rw [hc] at h; simp at h
      | some e => exact ⟨e, rfl⟩
    rw [he]
    refine ⟨by simp, ?_, e, rfl⟩
    simp [List.count_append, count_done_contentMap, evAnalyzing, evThinking]
  · rw [hh] at h ⊢
    obtain ⟨e, he⟩ : ∃ e, env.streamChat.err = some e := by
      cases hc : env.streamChat.err with
      | none => rw [hc] at h; simp at h
      | some e => exact ⟨e, rfl⟩
    rw [he]
    refine ⟨by simp, ?_, e, rfl⟩
    simp [List.count_append, count_done_contentMap, count_done_searchOutcome,
      evAnalyzing, evThinking, evSearching]

/-- C4 witness: a mid-stream throw after one delivered chunk leaves the
delivered events in place, emits no `done`, and yields a catch response. -/
theorem C4_throw_out_of_band_witness :
    (chatHandler ⟨false, false⟩
      ⟨⟨true, "q"⟩, .ok [], .ok "unused", ⟨true, ""⟩, .ok [], ⟨["Hel"], some ⟨"boom", none⟩⟩⟩
      "m").events ≠ [] ∧
    (chatHandler ⟨false, false⟩
      ⟨⟨true, "q"⟩, .ok [], .ok "unused", ⟨true, ""⟩, .ok [], ⟨["Hel"], some ⟨"boom", none⟩⟩⟩
      "m").events.count Event.done = 0 ∧
    ∃ e, (chatHandler ⟨false, false⟩
      ⟨⟨true, "q"⟩, .ok [], .ok "unused", ⟨true, ""⟩, .ok [], ⟨["Hel"], some ⟨"boom", none⟩⟩⟩
      "m").jsonError = some (catchResponse ⟨false, false⟩ e) :=
  C4_throw_out_of_band ⟨false, false⟩
    ⟨⟨true, "q"⟩, .ok [], .ok "unused", ⟨true, ""⟩, .ok [], ⟨["Hel"], some ⟨"boom", none⟩⟩⟩
    "m"
    (by rw [handler_searched ⟨false, false⟩
      ⟨⟨true, "q"⟩, .ok [], .ok "unused", ⟨true, ""⟩, .ok [], ⟨["Hel"], some ⟨"boom", none⟩⟩⟩
      "m" rfl (by decide)]
        <;> decide)

/-- C4 counterexample: a completion failure after streaming has begun (a
content chunk was already delivered) ends the request with no in-band error
event and no `done` — the trace has no `done` whatsoever, so "emits an
in-band Error event followed by Done" fails as stated; the handler answers
out-of-band with a 500 JSON body instead. -/
theorem C4_counterexample :
    Event.content "Hel" ∈ (chatHandler ⟨false, false⟩
      ⟨⟨true, "q"⟩, .ok [], .ok "unused", ⟨true, ""⟩, .ok [], ⟨["Hel"], some ⟨"boom", none⟩⟩⟩
      "m").events ∧
    (chatHandler ⟨false, false⟩
      ⟨⟨true, "q"⟩, .ok [], .ok "unused", ⟨true, ""⟩, .ok [], ⟨["Hel"], some ⟨"boom", none⟩⟩⟩
      "m").events.count Event.done = 0 ∧
    (chatHandler ⟨false, false⟩
      ⟨⟨true, "q"⟩, .ok [], .ok "unused", ⟨true, ""⟩, .ok [], ⟨["Hel"], some ⟨"boom", none⟩⟩⟩
      "m").jsonError = some (500, "boom") := by
  rw [handler_searched ⟨false, false⟩
    ⟨⟨true, "q"⟩, .ok [], .ok "unused", ⟨true, ""⟩, .ok [], ⟨["Hel"], some ⟨"boom", none⟩⟩⟩
    "m" rfl (by decide)]
  refine ⟨by decide, by decide, ?_⟩
  decide

/-- `contentTexts` skips a progress event. -/
theorem contentTexts_cons_progress (a b : String) (l : List Event) :
    contentTexts (Event.progress a b :: l) = contentTexts l := rfl

/-- `contentTexts` skips the terminal event. -/
theorem contentTexts_cons_done (l : List Event) :
    contentTexts (Event.done :: l) = contentTexts l := rfl

/-- `contentTexts` of the empty trace. -/
theorem contentTexts_nil : contentTexts [] = [] := rfl

/-- Lifted slice bounds: every emitted slice of a draft is nonempty and at
most 10 characters. -/
theorem chunkDraft_mem (s : String) : ∀ p ∈ chunkDraft s, p ≠ "" ∧ p.length ≤ 10 := by
  intro p hp
  rw [chunkDraft, List.mem_map] at hp
  obtain ⟨q, hq, rfl⟩ := hp
  obtain ⟨h1, h2⟩ := chunkDraftAux_mem s.data q hq
  refine ⟨?_, ?_⟩
  · intro hcon
    exact h1 (by simpa using congrArg String.data hcon)
  · simpa [String.length] using h2

/-- Lifted fixed-size property: every slice but possibly the last is exactly
10 characters. -/
theorem chunkDraft_dropLast (s : String) :
    ∀ p ∈ (chunkDraft s).dropLast, p.length = 10 := by
  intro p hp
  rw [chunkDraft, ← List.map_dropLast, List.mem_map] at hp
  obtain ⟨q, hq, rfl⟩ := hp
  simpa [String.length] using chunkDraftAux_dropLast s.data q hq

/-- C2 (amended): on every request the `Content` texts are exactly one of:
(a) the truthy chunks the streaming completion call delivered, in arrival
order — whether or not that call throws afterwards — concatenating to the
streamed backend output verbatim; (b) the buffered draft split into
contiguous fixed-size slices (nonempty, at most 10 characters, all but the
last exactly 10) that cover the draft exactly once with no overlap or gap;
or (c) empty, when the buffered draft call throws, in which case the run
ends through the catch handler and no draft or streamed output exists to
be covered (see the counterexample). -/
theorem C2_content_concat (cfg : Config) (env : Env) (msg : String) :
    (contentTexts (chatHandler cfg env msg).events =
        env.streamChat.chunks.filter (fun c => c != "") ∧
      strConcat (contentTexts (chatHandler cfg env msg).events) =
        strConcat env.streamChat.chunks) ∨
    (∃ d, env.bufferedChat = .ok d ∧
      contentTexts (chatHandler cfg env msg).events = chunkDraft d ∧
      strConcat (chunkDraft d) = d ∧
      (∀ p ∈ chunkDraft d, p ≠ "" ∧ p.length ≤ 10) ∧
      (∀ p ∈ (chunkDraft d).dropLast, p.length = 10)) ∨
    (∃ e, env.bufferedChat = .error e ∧
      contentTexts (chatHandler cfg env msg).events = [] ∧
      (chatHandler cfg env msg).jsonError = some (catchResponse cfg e)) := by
  rcases chatHandler_cases cfg env msg with
    ⟨e, hn, hb, hh⟩ | ⟨d, hn, hb, ha, hh⟩ | ⟨d, hn, hb, ha, hh⟩ | ⟨hn, hq, hh⟩ | ⟨hn, hq, hh⟩
  · rw [hh]
    exact .inr (.inr ⟨e, hb, rfl, rfl⟩)
  · refine .inr (.inl ⟨d, hb, ?_, strConcat_chunkDraft d, chunkDraft_mem d, chunkDraft_dropLast d⟩)
    rw [hh]
    simp only [evAnalyzing, evThinking, evVerifying, List.cons_append, List.nil_append,
      contentTexts_cons_progress, contentTexts_append, contentTexts_map_content,
      contentTexts_cons_done, contentTexts_nil, List.append_nil]
  · rw [hh]
    have hso := (searchOutcome_no_content env.retrySearch).1
    refine .inl ⟨?_, ?_⟩ <;>
      cases he : env.streamChat.err <;>
        simp only [he, evAnalyzing, evThinking, evVerifying, evSearching, Option.elim,
          List.cons_append, List.nil_append, contentTexts_cons_progress,
          contentTexts_append, contentTexts_map_content, contentTexts_cons_done,
          contentTexts_nil, List.append_nil, hso, strConcat_filter_empty]
  · rw [hh]
    refine .inl ⟨?_, ?_⟩ <;>
      cases he : env.streamChat.err <;>
        simp only [he, evAnalyzing, evThinking, Option.elim, List.cons_append,
          List.nil_append, contentTexts_cons_progress, contentTexts_append,
          contentTexts_map_content, contentTexts_cons_done, contentTexts_nil,
          List.append_nil, strConcat_filter_empty]
  · rw [hh]
    have hso := (searchOutcome_no_content env.initialSearch).1
    refine .inl ⟨?_, ?_⟩ <;>
      cases he : env.streamChat.err <;>
        simp only [he, evAnalyzing, evThinking, evSearching, Option.elim, List.cons_append,
          List.nil_append, contentTexts_cons_progress, contentTexts_append,
          contentTexts_map_content, contentTexts_cons_done, contentTexts_nil,
          List.append_nil, hso, strConcat_filter_empty]

/-- C2 witness: the theorem at a concrete request whose adequate buffered
draft is emitted as its 10-character slices, which cover it exactly. -/
theorem C2_content_concat_witness :
    (contentTexts (chatHandler ⟨false, false⟩
        ⟨⟨false, ""⟩, .ok [], .ok "Hello world!", ⟨true, ""⟩, .ok [], ⟨[], none⟩⟩
        "m").events =
      ([] : List String).filter (fun c => c != "") ∧
      strConcat (contentTexts (chatHandler ⟨false, false⟩
        ⟨⟨false, ""⟩, .ok [], .ok "Hello world!", ⟨true, ""⟩, .ok [], ⟨[], none⟩⟩
        "m").events) = strConcat []) ∨
    (∃ d, (Except.ok "Hello world!" : Except JsError String) = .ok d ∧
      contentTexts (chatHandler ⟨false, false⟩
        ⟨⟨false, ""⟩, .ok [], .ok "Hello world!", ⟨true, ""⟩, .ok [], ⟨[], none⟩⟩
        "m").events = chunkDraft d ∧
      strConcat (chunkDraft d) = d ∧
      (∀ p ∈ chunkDraft d, p ≠ "" ∧ p.length ≤ 10) ∧
      (∀ p ∈ (chunkDraft d).dropLast, p.length = 10)) ∨
    (∃ e, (Except.ok "Hello world!" : Except JsError String) = .error e ∧
      contentTexts (chatHandler ⟨false, false⟩
        ⟨⟨false, ""⟩, .ok [], .ok "Hello world!", ⟨true, ""⟩, .ok [], ⟨[], none⟩⟩
        "m").events = [] ∧
      (chatHandler ⟨false, false⟩
        ⟨⟨false, ""⟩, .ok [], .ok "Hello world!", ⟨true, ""⟩, .ok [], ⟨[], none⟩⟩
        "m").jsonError = some (catchResponse ⟨false, false⟩ e)) :=
  C2_content_concat ⟨false, false⟩
    ⟨⟨false, ""⟩, .ok [], .ok "Hello world!", ⟨true, ""⟩, .ok [], ⟨[], none⟩⟩ "m"

/-- C2 counterexample: when the buffered draft call throws, the run ends
through the catch handler having emitted no `Content` event at all: the
concatenation is empty while the streaming call — the only possible source
of "the incrementally streamed backend output" — never ran (its would-be
output "XYZ" differs from the empty concatenation), and no buffered draft
exists to slice (the call produced an error, not a draft).  So the frozen
"for every request, the concatenation equals either (a) or (b)" fails at
this request. -/
theorem C2_counterexample :
    contentTexts (chatHandler ⟨false, false⟩
      ⟨⟨false, ""⟩, .ok [], .error ⟨"boom", none⟩, ⟨true, ""⟩, .ok [], ⟨["XYZ"], none⟩⟩
      "m").events = [] ∧
    (chatHandler ⟨false, false⟩
      ⟨⟨false, ""⟩, .ok [], .error ⟨"boom", none⟩, ⟨true, ""⟩, .ok [], ⟨["XYZ"], none⟩⟩
      "m").jsonError = some (500, "boom") ∧
    (⟨⟨false, ""⟩, .ok [], .error ⟨"boom", none⟩, ⟨true, ""⟩, .ok [],
      ⟨["XYZ"], none⟩⟩ : Env).bufferedChat = .error ⟨"boom", none⟩ ∧
    strConcat (contentTexts (chatHandler ⟨false, false⟩
      ⟨⟨false, ""⟩, .ok [], .error ⟨"boom", none⟩, ⟨true, ""⟩, .ok [], ⟨["XYZ"], none⟩⟩
      "m").events) ≠
      strConcat (⟨⟨false, ""⟩, .ok [], .error ⟨"boom", none⟩, ⟨true, ""⟩, .ok [],
        ⟨["XYZ"], none⟩⟩ : Env).streamChat.chunks := by
  rw [handler_noSearch_bufErr ⟨false, false⟩
    ⟨⟨false, ""⟩, .ok [], .error ⟨"boom", none⟩, ⟨true, ""⟩, .ok [], ⟨["XYZ"], none⟩⟩
    "m" ⟨"boom", none⟩ rfl rfl]
  refine ⟨rfl, by decide, rfl, by decide⟩

/-- C5 (amended): for every request whose need-decision has `needs_search`
false — which is what `needsConfirmation` (line 364) actually tests — and
whose buffered completion succeeds, the handler generates the complete
buffered draft, invokes the adequacy advisor exactly once, and the first
three events are the analyzing, generating and verifying progress events,
so no `Content` event precedes the adequacy check.  (When `needs_search`
is true with an empty `search_query`, no search is performed either, yet
the handler streams with no adequacy check: see the counterexample.) -/
theorem C5_no_search_confirms (cfg : Config) (env : Env) (msg : String) (d : String)
    (hn : env.searchDecision.needs_search = false) (hb : env.bufferedChat = .ok d) :
    (chatHandler cfg env msg).adequacyCalls = 1 ∧
    (chatHandler cfg env msg).events.take 3 = [evAnalyzing, evThinking, evVerifying] ∧
    contentTexts ((chatHandler cfg env msg).events.take 3) = [] := by
  by_cases ha : env.confirmation.is_adequate = true
  · rw [handler_noSearch_adequate cfg env msg d hn hb ha]
    exact ⟨rfl, rfl, rfl⟩
  · have ha' : env.confirmation.is_adequate = false := by simpa using ha
    rw [handler_noSearch_inadequate cfg env msg d hn hb ha']
    exact ⟨rfl, rfl, rfl⟩

/-- C5 witness: the theorem at a concrete no-search request. -/
theorem C5_no_search_confirms_witness :
    (chatHandler ⟨false, false⟩
      ⟨⟨false, ""⟩, .ok [], .ok "d", ⟨true, ""⟩, .ok [], ⟨[], none⟩⟩
      "m").adequacyCalls = 1 ∧
    (chatHandler ⟨false, false⟩
      ⟨⟨false, ""⟩, .ok [], .ok "d", ⟨true, ""⟩, .ok [], ⟨[], none⟩⟩
      "m").events.take 3 = [evAnalyzing, evThinking, evVerifying] ∧
    contentTexts ((chatHandler ⟨false, false⟩
      ⟨⟨false, ""⟩, .ok [], .ok "d", ⟨true, ""⟩, .ok [], ⟨[], none⟩⟩
      "m").events.take 3) = [] :=
  C5_no_search_confirms ⟨false, false⟩
    ⟨⟨false, ""⟩, .ok [], .ok "d", ⟨true, ""⟩, .ok [], ⟨[], none⟩⟩ "m" "d" rfl rfl

/-- C5 counterexample: a need-decision with `needs_search` true but an empty
`search_query` performs no first-pass search (the guard at line 340
requires a truthy query), yet `needsConfirmation` is false, so the handler
streams content with no buffered draft and no adequacy check — refuting
"every request with no first-pass search gets a buffered draft and an
adequacy check before any Content". -/
theorem C5_counterexample :
    (chatHandler ⟨false, false⟩
      ⟨⟨true, ""⟩, .ok [], .error ⟨"unused", none⟩, ⟨true, ""⟩, .ok [], ⟨["Hi"], none⟩⟩
      "m").initialSearchInvoked = false ∧
    (chatHandler ⟨false, false⟩
      ⟨⟨true, ""⟩, .ok [], .error ⟨"unused", none⟩, ⟨true, ""⟩, .ok [], ⟨["Hi"], none⟩⟩
      "m").adequacyCalls = 0 ∧
    Event.content "Hi" ∈ (chatHandler ⟨false, false⟩
      ⟨⟨true, ""⟩, .ok [], .error ⟨"unused", none⟩, ⟨true, ""⟩, .ok [], ⟨["Hi"], none⟩⟩
      "m").events := by
  rw [handler_searchSkipped ⟨false, false⟩
    ⟨⟨true, ""⟩, .ok [], .error ⟨"unused", none⟩, ⟨true, ""⟩, .ok [], ⟨["Hi"], none⟩⟩
    "m" rfl rfl]
  refine ⟨rfl, rfl, ?_⟩
  decide

/-- C8 (amended): whenever a search invocation fails (first-pass part,
then retry-pass part), the handler emits a progress event of type `error`
carrying `Web search failed: <message>` and continues the request with no
search results rather than aborting: the subsequent streaming completion
call still runs and its truthy chunks are the `Content` events.  The
terminal outcome is determined solely by that completion call — the search
failure itself is never the terminal outcome — and the request terminates
with `done` provided the completion call does not throw; if it throws, the
request ends through the catch handler with no `done` (see the
counterexample). -/
theorem C8_search_failure_nonfatal (cfg : Config) (env : Env)
    (msg m1 m2 d : String) :
    (env.searchDecision.needs_search = true → env.searchDecision.search_query ≠ "" →
      env.initialSearch = .error m1 →
      Event.progress "error" ("Web search failed: " ++ m1) ∈ (chatHandler cfg env msg).events ∧
      contentTexts (chatHandler cfg env msg).events =
        env.streamChat.chunks.filter (fun c => c != "") ∧
      (chatHandler cfg env msg).jsonError =
        env.streamChat.err.map (fun e => catchResponse cfg e) ∧
      (env.streamChat.err = none →
        (chatHandler cfg env msg).events.getLast? = some Event.done)) ∧
    (env.searchDecision.needs_search = false → env.bufferedChat = .ok d →
      env.confirmation.is_adequate = false → env.retrySearch = .error m2 →
      Event.progress "error" ("Web search failed: " ++ m2) ∈ (chatHandler cfg env msg).events ∧
      contentTexts (chatHandler cfg env msg).events =
        env.streamChat.chunks.filter (fun c => c != "") ∧
      (chatHandler cfg env msg).jsonError =
        env.streamChat.err.map (fun e => catchResponse cfg e) ∧
      (env.streamChat.err = none →
        (chatHandler cfg env msg).events.getLast? = some Event.done)) := by
  constructor
  · intro hn hq hi
    rw [handler_searched cfg env msg hn hq]
    have hso := (searchOutcome_no_content env.initialSearch).1
    refine ⟨?_, ?_, rfl, ?_⟩
    · simp [hi, searchOutcomeEvents]
    · cases he : env.streamChat.err <;>
        simp only [he, evAnalyzing, evThinking, evSearching, Option.elim, List.cons_append,
          List.nil_append, contentTexts_cons_progress, contentTexts_append,
          contentTexts_map_content, contentTexts_cons_done, contentTexts_nil,
          List.append_nil, hso]
    · intro he
      rw [he]
      simp [List.getLast?_append, List.getLast?_concat, getLast?_done_cons]
  · intro hn hb ha hr
    rw [handler_noSearch_inadequate cfg env msg d hn hb ha]
    have hso := (searchOutcome_no_content env.retrySearch).1
    refine ⟨?_, ?_, rfl, ?_⟩
    · simp [hr, searchOutcomeEvents]
    · cases he : env.streamChat.err <;>
        simp only [he, evAnalyzing, evThinking, evVerifying, evSearching, Option.elim,
          List.cons_append, List.nil_append, contentTexts_cons_progress,
          contentTexts_append, contentTexts_map_content, contentTexts_cons_done,
          contentTexts_nil, List.append_nil, hso]
    · intro he
      rw [he]
      simp [List.getLast?_append, List.getLast?_concat, getLast?_done_cons]

/-- C8 witness: both failure sites at concrete requests whose completion
then streams successfully — a first-pass search failure and a retry-pass
search failure each leave an error progress event, stream the completion
chunks, and end in `done` with no catch response. -/
theorem C8_search_failure_nonfatal_witness :
    (Event.progress "error" ("Web search failed: " ++ "netfail") ∈
      (chatHandler ⟨false, false⟩
        ⟨⟨true, "q"⟩, .error "netfail", .ok "x", ⟨true, ""⟩, .ok [], ⟨["ans"], none⟩⟩
        "m").events ∧
      contentTexts ((chatHandler ⟨false, false⟩
        ⟨⟨true, "q"⟩, .error "netfail", .ok "x", ⟨true, ""⟩, .ok [], ⟨["ans"], none⟩⟩
        "m").events) = ["ans"].filter (fun c => c != "") ∧
      (chatHandler ⟨false, false⟩
        ⟨⟨true, "q"⟩, .error "netfail", .ok "x", ⟨true, ""⟩, .ok [], ⟨["ans"], none⟩⟩
        "m").jsonError = none ∧
      (chatHandler ⟨false, false⟩
        ⟨⟨true, "q"⟩, .error "netfail", .ok "x", ⟨true, ""⟩, .ok [], ⟨["ans"], none⟩⟩
        "m").events.getLast? = some Event.done) ∧
    (Event.progress "error" ("Web search failed: " ++ "netfail2") ∈
      (chatHandler ⟨false, false⟩
        ⟨⟨false, ""⟩, .ok [], .ok "draft", ⟨false, "fq"⟩, .error "netfail2", ⟨["ans"], none⟩⟩
        "m").events ∧
      contentTexts ((chatHandler ⟨false, false⟩
        ⟨⟨false, ""⟩, .ok [], .ok "draft", ⟨false, "fq"⟩, .error "netfail2", ⟨["ans"], none⟩⟩
        "m").events) = ["ans"].filter (fun c => c != "") ∧
      (chatHandler ⟨false, false⟩
        ⟨⟨false, ""⟩, .ok [], .ok "draft", ⟨false, "fq"⟩, .error "netfail2", ⟨["ans"], none⟩⟩
        "m").jsonError = none ∧
      (chatHandler ⟨false, false⟩
        ⟨⟨false, ""⟩, .ok [], .ok "draft", ⟨false, "fq"⟩, .error "netfail2", ⟨["ans"], none⟩⟩
        "m").events.getLast? = some Event.done) := by
  have hA := (C8_search_failure_nonfatal ⟨false, false⟩
    ⟨⟨true, "q"⟩, .error "netfail", .ok "x", ⟨true, ""⟩, .ok [], ⟨["ans"], none⟩⟩
    "m" "netfail" "unused" "unused").1 rfl (by decide) rfl
  have hB := (C8_search_failure_nonfatal ⟨false, false⟩
    ⟨⟨false, ""⟩, .ok [], .ok "draft", ⟨false, "fq"⟩, .error "netfail2", ⟨["ans"], none⟩⟩
    "m" "unused" "netfail2" "draft").2 rfl rfl rfl rfl
  exact ⟨⟨hA.1, hA.2.1, hA.2.2.1, hA.2.2.2 rfl⟩, ⟨hB.1, hB.2.1, hB.2.2.1, hB.2.2.2 rfl⟩⟩

/-- C8 counterexample: a failed first-pass search follows the non-fatal
path (the `Web search failed` progress event is written and generation
proceeds), but the subsequent streaming completion call throws, so the
request ends through the catch handler with zero `done` events — refuting
the frozen "the request still terminates with Done" for a request whose
SearchProvider invocation failed. -/
theorem C8_counterexample :
    Event.progress "error" ("Web search failed: " ++ "netfail") ∈
      (chatHandler ⟨false, false⟩
        ⟨⟨true, "q"⟩, .error "netfail", .ok "x", ⟨true, ""⟩, .ok [],
          ⟨[], some ⟨"down", none⟩⟩⟩
        "m").events ∧
    (chatHandler ⟨false, false⟩
      ⟨⟨true, "q"⟩, .error "netfail", .ok "x", ⟨true, ""⟩, .ok [],
        ⟨[], some ⟨"down", none⟩⟩⟩
      "m").events.count Event.done = 0 ∧
    (chatHandler ⟨false, false⟩
      ⟨⟨true, "q"⟩, .error "netfail", .ok "x", ⟨true, ""⟩, .ok [],
        ⟨[], some ⟨"down", none⟩⟩⟩
      "m").jsonError = some (500, "down") := by
  rw [handler_searched ⟨false, false⟩
    ⟨⟨true, "q"⟩, .error "netfail", .ok "x", ⟨true, ""⟩, .ok [],
      ⟨[], some ⟨"down", none⟩⟩⟩
    "m" rfl (by decide)]
  refine ⟨by decide, by decide, by decide⟩

/-- C6 (amended): the fallback Decisions of both advisors satisfy the
claimed invariant — `needs_search` falsy, `search_query` empty and
`reasoning` present — but a Decision parsed from the model output is
returned exactly as parsed, with no validation, so the invariant is not
enforced on it (see the counterexample). -/
theorem C6_decision_invariant (s : String) (v : JVal)
    (h : jsParse (extractJson (trimJS s)) = some v) :
    checkIfNeedsSearch (.ok s) = v ∧
    confirmResponseAdequacy (.ok s) = v ∧
    (truthy (searchDecisionFallback.getField "needs_search") = false ∧
      searchDecisionFallback.getField "search_query" = some (.str "") ∧
      searchDecisionFallback.getField "reasoning" =
        some (.str "Reasoning check failed, defaulting to no search")) ∧
    (truthy (adequacyFallback.getField "needs_search") = false ∧
      adequacyFallback.getField "search_query" = some (.str "") ∧
      adequacyFallback.getField "reasoning" =
        some (.str "Confirmation check failed, defaulting to adequate")) := by
  refine ⟨?_, ?_, ⟨rfl, rfl, rfl⟩, ⟨rfl, rfl, rfl⟩⟩
  · simp [checkIfNeedsSearch, h]
  · simp [confirmResponseAdequacy, h]

/-- C6 witness: a well-formed model reply parses and is returned verbatim by
both advisors; the fallback invariants hold. -/
theorem C6_decision_invariant_witness :
    checkIfNeedsSearch
        (.ok "\x7b\"needs_search\": false, \"search_query\": \"\", \"reasoning\": \"ok\"\x7d") =
      JVal.obj [("needs_search", .bool false), ("search_query", .str ""),
        ("reasoning", .str "ok")] ∧
    confirmResponseAdequacy
        (.ok "\x7b\"needs_search\": false, \"search_query\": \"\", \"reasoning\": \"ok\"\x7d") =
      JVal.obj [("needs_search", .bool false), ("search_query", .str ""),
        ("reasoning", .str "ok")] ∧
    (truthy (searchDecisionFallback.getField "needs_search") = false ∧
      searchDecisionFallback.getField "search_query" = some (.str "") ∧
      searchDecisionFallback.getField "reasoning" =
        some (.str "Reasoning check failed, defaulting to no search")) ∧
    (truthy (adequacyFallback.getField "needs_search") = false ∧
      adequacyFallback.getField "search_query" = some (.str "") ∧
      adequacyFallback.getField "reasoning" =
        some (.str "Confirmation check failed, defaulting to adequate")) :=
  C6_decision_invariant
    "\x7b\"needs_search\": false, \"search_query\": \"\", \"reasoning\": \"ok\"\x7d"
    (JVal.obj [("needs_search", .bool false), ("search_query", .str ""),
      ("reasoning", .str "ok")])
    (by rfl)

/-- C6 counterexample: the model reply
`\x7b"needs_search": true, "search_query": "", "reasoning": "recent data needed"\x7d`
parses, so `checkIfNeedsSearch` returns it unvalidated: its `needs_search`
is truthy while `search_query` is the empty string — refuting the claimed
invariant `needsSearch = true implies searchQuery nonempty` for Decision
values parsed from model output. -/
theorem C6_counterexample :
    truthy ((checkIfNeedsSearch
        (.ok "\x7b\"needs_search\": true, \"search_query\": \"\", \"reasoning\": \"recent data needed\"\x7d")).getField
      "needs_search") = true ∧
    (checkIfNeedsSearch
        (.ok "\x7b\"needs_search\": true, \"search_query\": \"\", \"reasoning\": \"recent data needed\"\x7d")).getField
      "search_query" = some (.str "") := by
  exact ⟨rfl, rfl⟩

/-- C7: if either advisor's completion call throws, or its response does
not parse as JSON (`JSON.parse` throws), the advisor returns its fallback
Decision — whose `needs_search` is falsy, the adequacy fallback
additionally being `is_adequate` — and, being a total function of the call
outcome, never raises to its caller. -/
theorem C7_advisor_fail_soft (e : JsError) (s : String)
    (hp : jsParse (extractJson (trimJS s)) = none) :
    checkIfNeedsSearch (.error e) = searchDecisionFallback ∧
    confirmResponseAdequacy (.error e) = adequacyFallback ∧
    checkIfNeedsSearch (.ok s) = searchDecisionFallback ∧
    confirmResponseAdequacy (.ok s) = adequacyFallback ∧
    truthy (searchDecisionFallback.getField "needs_search") = false ∧
    truthy (adequacyFallback.getField "needs_search") = false ∧
    truthy (adequacyFallback.getField "is_adequate") = true := by
  exact ⟨rfl, rfl, by simp [checkIfNeedsSearch, hp], by simp [confirmResponseAdequacy, hp],
    rfl, rfl, rfl⟩

/-- C7 witness: a thrown call and the unparsable reply `\x7ba\x7d` (which
survives extraction but fails `JSON.parse`) both produce the fallbacks. -/
theorem C7_advisor_fail_soft_witness :
    checkIfNeedsSearch (.error ⟨"boom", none⟩) = searchDecisionFallback ∧
    confirmResponseAdequacy (.error ⟨"boom", none⟩) = adequacyFallback ∧
    checkIfNeedsSearch (.ok "\x7ba\x7d") = searchDecisionFallback ∧
    confirmResponseAdequacy (.ok "\x7ba\x7d") = adequacyFallback ∧
    truthy (searchDecisionFallback.getField "needs_search") = false ∧
    truthy (adequacyFallback.getField "needs_search") = false ∧
    truthy (adequacyFallback.getField "is_adequate") = true :=
  C7_advisor_fail_soft ⟨"boom", none⟩ "\x7ba\x7d" (by rfl)

/-- C9 (amended): `previousYear = currentYear - 1` always holds; but
`currentYear` is the local-time year (`getFullYear`) while `isoDate` is
rendered from the UTC day (`toISOString`), so `currentYear = year(isoDate)`
is only guaranteed when the timezone offset is zero (or, more generally,
when the local and UTC instants fall in the same calendar year); near a
year boundary with a nonzero offset the two differ (see the
counterexample). -/
theorem C9_date_invariant (epochMinutes tzOffsetMinutes : Int) :
    (getCurrentDate epochMinutes tzOffsetMinutes).previousYear =
      (getCurrentDate epochMinutes tzOffsetMinutes).currentYear - 1 ∧
    (getCurrentDate epochMinutes tzOffsetMinutes).currentYear =
      (civilFromDays ((epochMinutes + tzOffsetMinutes).fdiv 1440)).1 ∧
    (getCurrentDate epochMinutes tzOffsetMinutes).iso =
      isoFromDays (epochMinutes.fdiv 1440) ∧
    (tzOffsetMinutes = 0 →
      (getCurrentDate epochMinutes tzOffsetMinutes).currentYear =
        (civilFromDays (epochMinutes.fdiv 1440)).1) := by
  refine ⟨rfl, rfl, rfl, ?_⟩
  intro h
  subst h
  show (civilFromDays ((epochMinutes + 0).fdiv 1440)).1 = _
  rw [add_zero]

/-- C9 witness: the theorem at the UTC instant 2025-12-31T23:30Z with a zero
offset, where the invariant holds. -/
theorem C9_date_invariant_witness :
    (getCurrentDate 29453730 0).previousYear = (getCurrentDate 29453730 0).currentYear - 1 ∧
    (getCurrentDate 29453730 0).currentYear =
      (civilFromDays (((29453730 : Int) + 0).fdiv 1440)).1 ∧
    (getCurrentDate 29453730 0).iso = isoFromDays ((29453730 : Int).fdiv 1440) ∧
    (getCurrentDate 29453730 0).currentYear = (civilFromDays ((29453730 : Int).fdiv 1440)).1 :=
  ⟨(C9_date_invariant 29453730 0).1, (C9_date_invariant 29453730 0).2.1,
   (C9_date_invariant 29453730 0).2.2.1, (C9_date_invariant 29453730 0).2.2.2 rfl⟩

/-- C9 counterexample: at the instant 2025-12-31T23:30 UTC in a UTC+1
environment (offset +60 minutes, local time 2026-01-01T00:30),
`getFullYear` yields the local year 2026 while `toISOString` renders the
UTC date `2025-12-31`, so `currentYear = 2026` but `year(isoDate) = 2025` —
refuting `currentYear == year(isoDate)` as stated. -/
theorem C9_counterexample :
    (getCurrentDate 29453730 60).currentYear = 2026 ∧
    (getCurrentDate 29453730 60).iso = "2025-12-31" ∧
    isoYear (getCurrentDate 29453730 60).iso = 2025 ∧
    (getCurrentDate 29453730 60).previousYear = 2025 := by
  exact ⟨rfl, rfl, rfl, rfl⟩

/-- C10 witness: the theorem at a concrete request that takes the
inadequate-draft path, the only path that could approach the budget. -/
theorem C10_dead_branch_witness :
    (chatHandler ⟨false, false⟩
      ⟨⟨false, ""⟩, .ok [], .ok "draft", ⟨false, "x"⟩, .ok [], ⟨["a"], none⟩⟩
      "m").maxRetriesHit = false :=
  C10_dead_branch ⟨false, false⟩
    ⟨⟨false, ""⟩, .ok [], .ok "draft", ⟨false, "x"⟩, .ok [], ⟨["a"], none⟩⟩ "m"

end Srv
